import Mathlib

/-!
Verification development for the `wiki-scraper.py` beta-firmware scraper
(`BetaScraper.build_api`, `BetaScraper.get_signing_status`,
`BetaScraper.write_api`).

Modelling conventions:

* Python strings are Lean `String`s; all string primitives used by the
  scraper (`in`, `split`, `replace`, `endswith`, `isnumeric`, slicing,
  `int()`) are re-implemented below on `List Char` with Python semantics.
  `isnumeric`/`int()` are modelled for ASCII digit strings (the only
  numerals occurring in the scraped tables).
* Python exceptions are modelled with `Except PyErr`; an uncaught
  exception propagates out of the modelled function.
* The external library `wikitextparser` is treated as an oracle: a table
  cell is modelled as a `Cell` carrying the raw cell string together with
  the parse results the scraper reads from it (`wikilinks` and
  `external_links`).  Per `wikitextparser` semantics, a piped link
  `[[T|D]]` has `text = some D` while a bare link `[[T]]` has
  `text = none`.
* Python dicts appearing in the scraper (`self.api`, `firm`) are modelled
  as association lists / option-field structures keeping key insertion
  order.  The single `firm` dict allocated per table row (line 46 of the
  source) is shared by reference between all records appended during that
  row; the row loop is therefore modelled with explicit `Entry.ref`
  aliases that are resolved to the dict's final value when the row ends.
-/

/-- Python exceptions that the modelled code can raise. -/
inductive PyErr where
  | stopIteration
  | indexError
  | typeError
  | valueError
deriving DecidableEq, Repr

/-- Python `sub in s` substring test. -/
def strContains (s sub : String) : Bool :=
  (List.range (s.data.length + 1)).any (fun i => sub.data.isPrefixOf (s.data.drop i))

/-- Python `s.endswith(suf)`. -/
def strEndsWith (s suf : String) : Bool :=
  suf.data.isSuffixOf s.data

/-- Fuel-driven worker for `pySplit`; splits on the first occurrence of the
separator and recurses on the remainder, exactly like Python `str.split(sep)`
with a non-empty separator. -/
def splitAux (sep : List Char) : Nat → List Char → List Char → List (List Char)
  | _, acc, [] => [acc.reverse]
  | 0, acc, rest => [acc.reverse ++ rest]
  | n + 1, acc, c :: cs =>
    if sep.isPrefixOf (c :: cs) then
      acc.reverse :: splitAux sep n [] (List.drop sep.length (c :: cs))
    else
      splitAux sep n (c :: acc) cs

/-- Python `s.split(sep)` for a non-empty separator. -/
def pySplit (s sep : String) : List String :=
  (splitAux sep.data (s.data.length + 1) [] s.data).map String.mk

/-- Fuel-driven worker for `strReplaceAll`. -/
def replaceAux (pat rep : List Char) : Nat → List Char → List Char
  | _, [] => []
  | 0, rest => rest
  | n + 1, c :: cs =>
    if pat.isPrefixOf (c :: cs) then
      rep ++ replaceAux pat rep n (List.drop pat.length (c :: cs))
    else
      c :: replaceAux pat rep n cs

/-- Python `s.replace(pat, rep)` for a non-empty pattern: replaces every
non-overlapping occurrence, left to right. -/
def strReplaceAll (s pat rep : String) : String :=
  String.mk (replaceAux pat.data rep.data (s.data.length + 1) s.data)

/-- Python list indexing `l[i]` for a non-negative index: raises
`IndexError` when out of range. -/
def pyGet (l : List α) (i : Nat) : Except PyErr α :=
  if h : i < l.length then .ok (l.get ⟨i, h⟩) else .error .indexError

/-- Python `s[:-1]`: drop the last character (empty result on empty input). -/
def strDropLastChar (s : String) : String :=
  String.mk s.data.dropLast

/-- Python `s[:-2]`: drop the last two characters. -/
def strDropLast2 (s : String) : String :=
  String.mk s.data.dropLast.dropLast

/-- Python `s.isnumeric()` restricted to ASCII digit strings: true iff the
string is non-empty and all characters are decimal digits. -/
def pyIsNumeric (s : String) : Bool :=
  !s.data.isEmpty && s.data.all Char.isDigit

/-- Numeric value of an ASCII digit string (valid once `pyIsNumeric` holds). -/
def pyStrToNat (s : String) : Nat :=
  s.data.foldl (fun n c => 10 * n + (c.toNat - 48)) 0

/-- Python `int(s)` for ASCII digit strings: raises `ValueError` otherwise. -/
def pyInt (s : String) : Except PyErr Int :=
  if pyIsNumeric s then .ok (pyStrToNat s) else .error .valueError

/-- Truthiness of a Python integer (`if 7:` is taken). -/
def pyTruthyInt (n : Int) : Bool := n != 0

/-- Python `str(x)` for an optional string: `str(None)` is `"None"`. -/
def pyStrOpt : Option String → String
  | none => "None"
  | some s => s

/-- Lexicographic (code-point) comparison of strings, as Python `<`. -/
def strLtChars : List Char → List Char → Bool
  | [], [] => false
  | [], _ :: _ => true
  | _ :: _, [] => false
  | a :: as, b :: bs =>
    if a.toNat < b.toNat then true
    else if b.toNat < a.toNat then false
    else strLtChars as bs

/-- Python string `<` on the underlying code points. -/
def pyStrLt (a b : String) : Bool := strLtChars a.data b.data

/-- Wiki link as parsed by `wikitextparser`: `raw` is `str(link)` (the full
`[[...]]` markup) and `text` the display text, `none` for a bare link. -/
structure WikiLink where
  raw : String
  text : Option String
deriving DecidableEq, Repr

/-- External link as parsed by `wikitextparser`. -/
structure ExternalLink where
  url : String
deriving DecidableEq, Repr

/-- One wiki-table cell: the raw cell string together with the
`wikitextparser` parse results the scraper reads from it. -/
structure Cell where
  raw : String
  wikilinks : List WikiLink := []
  external_links : List ExternalLink := []
deriving DecidableEq, Repr

/-- The per-row `firm` dict.  Fields are `Option`s because the dict starts
empty; key insertion order in the source is `version`, `buildid`, `url`,
`size` (and `signed`, added only by `get_signing_status`). -/
structure Firm where
  version : Option String := none
  buildid : Option String := none
  url : Option String := none
  size : Option Int := none
  signed : Option Bool := none
deriving DecidableEq, Repr

/-- Key list of the `firm` dict, in Python insertion order. -/
def Firm.keys (f : Firm) : List String :=
  (if f.version.isSome then ["version"] else [])
    ++ (if f.buildid.isSome then ["buildid"] else [])
    ++ (if f.url.isSome then ["url"] else [])
    ++ (if f.size.isSome then ["size"] else [])
    ++ (if f.signed.isSome then ["signed"] else [])

/-- Python `len(firm.keys())`. -/
def Firm.numKeys (f : Firm) : Nat := f.keys.length

/-- The accumulated `self.api` mapping: device identifier to record list,
in dict insertion order. -/
abbrev Api := List (String × List Firm)

/-- Lookup of a device's record list (`self.api[dev]`, empty if absent). -/
def apiGet (api : Api) (dev : String) : List Firm :=
  ((api.find? (fun p => p.1 == dev)).map (fun p => p.2)).getD []

/-- Alternatives of the device regex `(iPhone|AppleTV|iPad|iPod)`, in
alternation order. -/
def deviceNames : List (List Char) :=
  ["iPhone".data, "AppleTV".data, "iPad".data, "iPod".data]

/-- Greedy `[0-9]+` scanner: longest digit run and the remainder. -/
def takeDigits : List Char → List Char × List Char
  | [] => ([], [])
  | c :: cs =>
    if c.isDigit then
      let (d, r) := takeDigits cs
      (c :: d, r)
    else ([], c :: cs)

/-- Model of `re.match(r'(iPhone|AppleTV|iPad|iPod)[0-9]+,[0-9]+', s)`:
returns `regex.group()` (the matched prefix) when the pattern matches at
the start of `s`. -/
def deviceRegexMatch (s : String) : Option String :=
  match deviceNames.find? (fun n => n.isPrefixOf s.data) with
  | none => none
  | some n =>
    let rest := s.data.drop n.length
    let (d1, r1) := takeDigits rest
    if d1.isEmpty then none
    else
      match r1 with
      | ',' :: r2 =>
        let (d2, _) := takeDigits r2
        if d2.isEmpty then none
        else some (String.mk (n ++ d1 ++ [','] ++ d2))
      | _ => none

/-- Page-level pre-filter of `build_api` (source line 27): a search result
is considered only when its title contains `".x"` and at least one of the
requested device-family substrings. -/
def pageFilterPasses (title : String) (device_types : List String) : Bool :=
  strContains title ".x" && device_types.any (fun x => strContains title x)

/-- Major-version extraction of `build_api` (source line 30):
`int(result['title'].split('/')[2][:-2])`. -/
def pageMajorVersion (title : String) : Except PyErr Int :=
  match pyGet (pySplit title "/") 2 with
  | .error e => .error e
  | .ok p => pyInt (strDropLast2 p)

/-- Page filtering of `build_api` (source lines 27-32): returns
`.ok true` when the page's tables are processed, `.ok false` when the page
is skipped by a `continue`.  The skip test on line 31 is the Python
conditional expression `major_version < 9 if 'Apple TV' not in
result['title'] else 7`, whose value for an Apple TV title is the integer
`7`, taken by truthiness. -/
def pageStep (title : String) (device_types : List String) : Except PyErr Bool :=
  if !(pageFilterPasses title device_types) then .ok false
  else
    match pageMajorVersion title with
    | .error e => .error e
    | .ok mv =>
      let skip : Bool :=
        if !(strContains title "Apple TV") then decide (mv < 9) else pyTruthyInt 7
      .ok (!skip)

/-- Compaction of a table row (source line 38): drop `None` cells. -/
def compactRow (row : List (Option Cell)) : List Cell :=
  row.filterMap id

/-- Device-column lookup (source line 41):
`next(template.index(x) for x in template if any(i in x for i in
('Codename', 'Keys')))`; `next` on an exhausted generator raises
`StopIteration`, which no handler catches. -/
def deviceColIdx (template : List String) : Except PyErr Nat :=
  match template.find? (fun x => strContains x "Codename" || strContains x "Keys") with
  | none => .error .stopIteration
  | some x => .ok (template.indexOf x)

/-- Device extraction (source lines 39-44): wiki links of the device cell,
filtered through the device regex applied to `str(link.text)`. -/
def rowDevices (template : List String) (fd : List Cell) : Except PyErr (List String) :=
  match deviceColIdx template with
  | .error e => .error e
  | .ok i =>
    match pyGet fd i with
    | .error e => .error e
    | .ok cell => .ok (cell.wikilinks.filterMap (fun wl => deviceRegexMatch (pyStrOpt wl.text)))

/-- Version extraction (source lines 48-52).  When the first compacted cell
embeds a wiki link, the source evaluates
`firm_data[0].replace(str(version.wikilinks[0]), version.wikilinks[0].text)`;
for a bare link `text` is `None` and `str.replace` raises `TypeError`. -/
def rowVersion (fd : List Cell) : Except PyErr String :=
  match pyGet fd 0 with
  | .error e => .error e
  | .ok c0 =>
    match c0.wikilinks with
    | [] => .ok c0.raw
    | wl :: _ =>
      match wl.text with
      | some t => .ok (strReplaceAll c0.raw wl.raw t)
      | none => .error .typeError

/-- Build-identifier extraction (source lines 54-59): split the second
compacted cell on `"   | "`; when more than one part results, drop the
first and last part and map each remaining part `b` to
`b.split(' = ')[-1][:-1]`. -/
def rowBuildids (fd : List Cell) : Except PyErr (List String) :=
  match pyGet fd 1 with
  | .error e => .error e
  | .ok c1 =>
    let bs := pySplit c1.raw "   | "
    if bs.length > 1 then
      .ok (((bs.drop 1).dropLast).map
        (fun b => strDropLastChar ((pySplit b " = ").getLastD "")))
    else .ok bs

/-- Download extraction (source lines 61-64): external links of the first
compacted cell that has any; `none` models the caught `StopIteration`
(the row is skipped with `continue`). -/
def rowIpsws (fd : List Cell) : Option (List ExternalLink) :=
  (fd.find? (fun c => !c.external_links.isEmpty)).map (fun c => c.external_links)

/-- Size extraction (source lines 69-72): split the last compacted cell on
the space character, strip commas and newlines from each token, and append
`int(word)` for every token that is numeric and greater than 10. -/
def ipswSizesOf (raw : String) : List Int :=
  ((pySplit raw " ").map
      (fun x => strReplaceAll (strReplaceAll x "," "") "\n" "")).foldl
    (fun acc w =>
      if pyIsNumeric w && decide (10 < pyStrToNat w) then acc ++ [(pyStrToNat w : Int)]
      else acc)
    []

/-- Entry of a device's record list while a row is being processed: either
a concrete record from an earlier row, or a reference to the current row's
shared `firm` dict (source line 46 allocates one dict per row, and line 97
appends that same dict object for every device of the row). -/
inductive Entry where
  | val (f : Firm)
  | ref
deriving DecidableEq, Repr

/-- The `self.api` mapping during a row, with by-reference entries. -/
abbrev ApiE := List (String × List Entry)

/-- Value of `f['buildid']` for a list entry, given the current value of
the row's shared `firm` dict. -/
def entryBuildid (cur : Firm) : Entry → Option String
  | .val f => f.buildid
  | .ref => cur.buildid

/-- Membership test `dev in api.keys()`. -/
def keyMem (api : ApiE) (dev : String) : Bool :=
  api.any (fun p => p.1 == dev)

/-- Lookup `api[dev]` on the by-reference mapping (empty if absent). -/
def getEntries (api : ApiE) (dev : String) : List Entry :=
  ((api.find? (fun p => p.1 == dev)).map (fun p => p.2)).getD []

/-- Assignment `api[dev] = l` on the by-reference mapping. -/
def setEntries (api : ApiE) (dev : String) (l : List Entry) : ApiE :=
  api.map (fun p => if p.1 == dev then (dev, l) else p)

/-- The `firm_index` rule (source line 78). -/
def firmIndex (n d : Nat) : Nat :=
  if (n == 4 && (d == 0 || d == 1)) || (n == 2 && d == 0) then 0 else 1

/-- The field assignments of one device-loop iteration (source lines
78-88): `firm['buildid'] = buildids[0]` (always evaluated, so an empty
`buildids` list raises `IndexError` here), overridden by
`buildids[firm_index]` when the list has more than one element; `url` and
`size` analogously from `ipsws`/`ipsw_sizes`, indexed by `firm_index`
exactly when `len(ipsws) > 1`. -/
def buildFirm (buildids : List String) (ipsws : List ExternalLink)
    (sizes : List Int) (n d : Nat) (f0 : Firm) : Except PyErr Firm :=
  match pyGet buildids 0 with
  | .error e => .error e
  | .ok b0 =>
    match (if buildids.length > 1 then pyGet buildids (firmIndex n d) else .ok b0) with
    | .error e => .error e
    | .ok b =>
      match pyGet ipsws 0 with
      | .error e => .error e
      | .ok u0 =>
        match pyGet sizes 0 with
        | .error e => .error e
        | .ok s0 =>
          match (if ipsws.length > 1 then
                   match pyGet ipsws (firmIndex n d) with
                   | .error e => .error e
                   | .ok u =>
                     match pyGet sizes (firmIndex n d) with
                     | .error e => .error e
                     | .ok s => .ok (u, s)
                 else .ok (u0, s0) : Except PyErr (ExternalLink × Int)) with
          | .error e => .error e
          | .ok (u, s) =>
            .ok { f0 with buildid := some b, url := some u.url, size := some s }

/-- One iteration of the device loop (source lines 77-97) on the state
`(firm, api)`: build the shared dict's new value, apply the completeness
guard (line 90), initialise the device's list (lines 93-94), and append a
reference to the shared dict unless a record with the same buildid is
already present (lines 96-97).  Existing same-row entries alias the shared
dict, so their buildid reads the freshly assigned value. -/
def deviceStep (devices buildids : List String) (ipsws : List ExternalLink)
    (sizes : List Int) (st : Firm × ApiE) (d : Nat) : Except PyErr (Firm × ApiE) :=
  match buildFirm buildids ipsws sizes devices.length d st.1 with
  | .error e => .error e
  | .ok f =>
    if f.numKeys < 4 then .ok (f, st.2)
    else
      match pyGet devices d with
      | .error e => .error e
      | .ok dev =>
        let api := if keyMem st.2 dev then st.2 else st.2 ++ [(dev, [])]
        let lst := getEntries api dev
        if lst.any (fun e => entryBuildid f e == f.buildid) then .ok (f, api)
        else .ok (f, setEntries api dev (lst ++ [Entry.ref]))

/-- The device loop `for d in range(len(devices))` (source line 77). -/
def deviceLoop (devices buildids : List String) (ipsws : List ExternalLink)
    (sizes : List Int) (f0 : Firm) (api : ApiE) : Except PyErr (Firm × ApiE) :=
  (List.range devices.length).foldlM (deviceStep devices buildids ipsws sizes) (f0, api)

/-- Lift the accumulated mapping to by-reference entries at row start. -/
def toApiE (api : Api) : ApiE :=
  api.map (fun p => (p.1, p.2.map Entry.val))

/-- Resolve every reference to the row's shared `firm` dict to the dict's
final value once the row is finished. -/
def resolveApi (cur : Firm) (api : ApiE) : Api :=
  api.map (fun p => (p.1, p.2.map (fun e =>
    match e with
    | .val f => f
    | .ref => cur)))

/-- Processing of one data row of a table (source lines 38-97), returning
the updated `self.api`: `.ok api` unchanged models a `continue`, and
`.error e` an uncaught exception escaping `build_api`. -/
def processRow (api : Api) (template : List String) (row : List (Option Cell)) :
    Except PyErr Api :=
  let fd := compactRow row
  match rowDevices template fd with
  | .error e => .error e
  | .ok devices =>
    match rowVersion fd with
    | .error e => .error e
    | .ok version =>
      match rowBuildids fd with
      | .error e => .error e
      | .ok buildids =>
        match rowIpsws fd with
        | none => .ok api
        | some ipsws =>
          if !(ipsws.any (fun l => strEndsWith l.url ".ipsw")) then .ok api
          else
            match pyGet fd (fd.length - 1) with
            | .error e => .error e
            | .ok lastCell =>
              let sizes := ipswSizesOf lastCell.raw
              if sizes.length != ipsws.length then .ok api
              else
                match deviceLoop devices buildids ipsws sizes
                    { version := some version } (toApiE api) with
                | .error e => .error e
                | .ok (f, apiE) => .ok (resolveApi f apiE)

/-- A wiki table as read by `build_api`: `table.data()[0]` is the template
row of column labels, the remaining rows are data rows. -/
structure Table where
  template : List String
  rows : List (List (Option Cell))

/-- Processing of all data rows of one table (source lines 35-97). -/
def processTable (api : Api) (t : Table) : Except PyErr Api :=
  t.rows.foldlM (fun a r => processRow a t.template r) api

/-- Worker for `get_signing_status` (source lines 102-122), with Python
`for`-loop semantics over a list that is mutated during iteration: the
iterator keeps an index `i` into the current list; a successful download
sets `firm['signed']` in place, a failed one removes
`lst[lst.index(firm)]` and continues, shifting subsequent elements under
the iterator.  `resolves` models whether the record's download resolves
(RemoteZip + manifest extraction), `signs` the tsschecker verdict. -/
def signRun (resolves signs : Firm → Bool) : Nat → Nat → List Firm → List Firm
  | 0, _, lst => lst
  | fuel + 1, i, lst =>
    if h : i < lst.length then
      let firm := lst.get ⟨i, h⟩
      if resolves firm then
        signRun resolves signs fuel (i + 1)
          (lst.set i { firm with signed := some (signs firm) })
      else
        signRun resolves signs fuel (i + 1) (lst.eraseIdx (lst.indexOf firm))
    else lst

/-- The record-list transformation performed by `get_signing_status` on
`self.api[device]` (source lines 102-122). -/
def get_signing_status (resolves signs : Firm → Bool) (lst : List Firm) : List Firm :=
  signRun resolves signs (lst.length + 1) 0 lst

/-- Stable insertion step for `pySortedByBuildidDesc`: the element goes in
front of the first element whose key is not greater than its own, which
keeps earlier-listed elements first among equal keys. -/
def insDesc (geB : Firm → Firm → Bool) (a : Firm) : List Firm → List Firm
  | [] => [a]
  | b :: bs => if geB a b then a :: b :: bs else b :: insDesc geB a bs

/-- Python `sorted(recs, key=lambda firm: firm['buildid'], reverse=True)`:
a stable sort, descending by buildid (records written by `write_api`
always carry a buildid; an absent one is compared as the empty string). -/
def pySortedByBuildidDesc (recs : List Firm) : List Firm :=
  recs.foldr
    (insDesc (fun a b => !(pyStrLt (a.buildid.getD "") (b.buildid.getD ""))))
    []

/-- Serialized per-device file contents: the sorted record list that
`json.dump` writes. -/
abbrev FsFile := List Firm

/-- Writing one file into the output directory (`open(f'{path}/{device}',
'w')` truncates an existing file of the same name). -/
def fsWrite (d : List (String × FsFile)) (name : String) (content : FsFile) :
    List (String × FsFile) :=
  if d.any (fun p => p.1 == name) then
    d.map (fun p => if p.1 == name then (name, content) else p)
  else d ++ [(name, content)]

/-- The `write_api` method (source lines 124-131) as a transformation of
the output path's directory contents: `prior` is the pre-existing
directory tree at the path, if any (`os.path.exists`); `shutil.rmtree`
deletes it whole, `os.mkdir` recreates the directory empty, and one file
per device key of `self.api` is written. -/
def write_api (prior : Option (List (String × FsFile))) (api : Api) :
    List (String × FsFile) :=
  let d0 : List (String × FsFile) :=
    match prior with
    | some _ => []
    | none => []
  api.foldl (fun d kv => fsWrite d kv.1 (pySortedByBuildidDesc kv.2)) d0

/-- Whitespace tokenisation following the claim's wording ("whitespace-
separated tokens"): maximal runs of non-whitespace characters, as Python's
argumentless `str.split()` would produce. -/
def wsTokens (l : List Char) : List (List Char) :=
  (l.foldr
    (fun c acc =>
      if c.isWhitespace then [] :: acc
      else
        match acc with
        | [] => [[c]]
        | t :: ts => (c :: t) :: ts)
    []).filter (fun t => !t.isEmpty)

/-- Size extraction as the claim words it: the whitespace-separated tokens
of the cell that, after stripping commas and newlines, are purely numeric
and greater than 10.  Stated for comparison with `ipswSizesOf`, the
extraction the source performs. -/
def sizesSpec (raw : String) : List Int :=
  ((wsTokens raw.data).map
      (fun t => strReplaceAll (strReplaceAll (String.mk t) "," "") "\n" "")).filterMap
    (fun w =>
      if pyIsNumeric w && decide (10 < pyStrToNat w) then some ((pyStrToNat w : Int))
      else none)

/-- Template row used by the concrete 4-device example: the device column
is labelled `Keys`. -/
def c1Template : List String := ["Version", "Build", "Keys", "Download", "Size"]

/-- A well-formed 4-device data row `[A,B,C,D]` with two build variants.
Splitting its second cell on `"   | "` gives four parts, and dropping the
wrapper parts leaves the two buildids `18E5154a` and `18E5154b`. -/
def c1Row : List (Option Cell) :=
  [ some { raw := "14.5 beta 1" },
    some { raw := "junk   | A = 18E5154ax   | B = 18E5154bx   | end" },
    some { raw := "[[a|iPhone1,1]][[b|iPhone1,2]][[c|iPad1,1]][[d|iPod1,1]]",
           wikilinks := [ { raw := "[[a|iPhone1,1]]", text := some "iPhone1,1" },
                          { raw := "[[b|iPhone1,2]]", text := some "iPhone1,2" },
                          { raw := "[[c|iPad1,1]]", text := some "iPad1,1" },
                          { raw := "[[d|iPod1,1]]", text := some "iPod1,1" } ] },
    some { raw := "[http://e/a.ipsw a] [http://e/b.ipsw b]",
           external_links := [ { url := "http://e/a.ipsw" },
                               { url := "http://e/b.ipsw" } ] },
    some { raw := "5000000000 6000000000" } ]

/-- The record value every device of `c1Row` ends up sharing: the row's
single `firm` dict after its final mutation (second build variant). -/
def c1FinalFirm : Firm :=
  { version := some "14.5 beta 1", buildid := some "18E5154b",
    url := some "http://e/b.ipsw", size := some 6000000000 }

/-- The mapping produced by processing `c1Row` from an empty `self.api`. -/
def c1ResultApi : Api :=
  [ ("iPhone1,1", [c1FinalFirm]), ("iPhone1,2", [c1FinalFirm]),
    ("iPad1,1", [c1FinalFirm]), ("iPod1,1", [c1FinalFirm]) ]

/-- Template row for the duplicate-buildid scenario. -/
def c2Template : List String := ["Version", "Build", "Keys", "Download", "Size"]

/-- First data row: a single-device row for `iPhone1,1` whose (single)
buildid is `18E5154b`. -/
def c2Row1 : List (Option Cell) :=
  [ some { raw := "13.0 beta" },
    some { raw := "18E5154b" },
    some { raw := "[[a|iPhone1,1]]",
           wikilinks := [ { raw := "[[a|iPhone1,1]]", text := some "iPhone1,1" } ] },
    some { raw := "[http://e/r1.ipsw r1]",
           external_links := [ { url := "http://e/r1.ipsw" } ] },
    some { raw := "5000000000" } ]

/-- Second data row: a 2-device row `[iPhone1,1, iPad1,1]` with build
variants `18E5154a` and `18E5154b`.  The duplicate check for `iPhone1,1`
compares `18E5154a` (no duplicate) and appends the shared dict, which the
second device's iteration then mutates to `18E5154b`. -/
def c2Row2 : List (Option Cell) :=
  [ some { raw := "14.5 beta 1" },
    some { raw := "junk   | A = 18E5154ax   | B = 18E5154bx   | end" },
    some { raw := "[[a|iPhone1,1]][[c|iPad1,1]]",
           wikilinks := [ { raw := "[[a|iPhone1,1]]", text := some "iPhone1,1" },
                          { raw := "[[c|iPad1,1]]", text := some "iPad1,1" } ] },
    some { raw := "[http://e/a.ipsw a] [http://e/b.ipsw b]",
           external_links := [ { url := "http://e/a.ipsw" },
                               { url := "http://e/b.ipsw" } ] },
    some { raw := "5000000000 6000000000" } ]

/-- The record `c2Row1` stores for `iPhone1,1`. -/
def c2FirstFirm : Firm :=
  { version := some "13.0 beta", buildid := some "18E5154b",
    url := some "http://e/r1.ipsw", size := some 5000000000 }

/-- The final value of `c2Row2`'s shared `firm` dict. -/
def c2SecondFirm : Firm :=
  { version := some "14.5 beta 1", buildid := some "18E5154b",
    url := some "http://e/b.ipsw", size := some 6000000000 }

/-- The mapping after both rows of the duplicate-buildid scenario. -/
def c2ResultApi : Api :=
  [ ("iPhone1,1", [c2FirstFirm, c2SecondFirm]), ("iPad1,1", [c2SecondFirm]) ]

/-- A data row for the missing-device-column counterexample; its cells are
unremarkable, the malformation is in the template row. -/
def c3Row : List (Option Cell) :=
  [ some { raw := "14.5 beta 1" }, some { raw := "18E5154a" },
    some { raw := "[http://e/a.ipsw a] 5000000000",
           external_links := [ { url := "http://e/a.ipsw" } ] } ]

/-- The version cell of the claim's example: the bare wiki-link
`[[iOS 10.1 beta 1]]`, whose parsed display text is `None`. -/
def c5BareCell : Cell :=
  { raw := "[[iOS 10.1 beta 1]]",
    wikilinks := [ { raw := "[[iOS 10.1 beta 1]]", text := none } ] }

/-- A full row whose first compacted cell is the bare wiki-link version
cell; every other extraction step is well-formed. -/
def c5Row : List (Option Cell) :=
  [ some c5BareCell,
    some { raw := "14E5249d" },
    some { raw := "[[a|iPhone1,1]]",
           wikilinks := [ { raw := "[[a|iPhone1,1]]", text := some "iPhone1,1" } ] },
    some { raw := "[http://e/a.ipsw a]",
           external_links := [ { url := "http://e/a.ipsw" } ] },
    some { raw := "5000000000" } ]

/-- A piped-wiki-link version cell, for the amended version rule. -/
def c5PipedCell : Cell :=
  { raw := "[[iOS 14.5|iOS 14.5 beta]]",
    wikilinks := [ { raw := "[[iOS 14.5|iOS 14.5 beta]]", text := some "iOS 14.5 beta" } ] }

/-- Resolution oracle of the signing scenario: only the record whose url
is `http://good.ipsw` has a resolvable download. -/
def c6Resolves : Firm → Bool := fun f => f.url == some "http://good.ipsw"

/-- A record whose download fails to resolve. -/
def c6r1 : Firm :=
  { version := some "v1", buildid := some "b1", url := some "http://bad.ipsw", size := some 1 }

/-- A record whose download resolves fine. -/
def c6r2 : Firm :=
  { version := some "v2", buildid := some "b2", url := some "http://good.ipsw", size := some 2 }

/-- Template row for the size/link count-mismatch witness. -/
def c7Template : List String := ["Version", "Build", "Keys", "Download", "Size"]

/-- A row with two `.ipsw` download links but three extracted sizes. -/
def c7Row : List (Option Cell) :=
  [ some { raw := "14.5 beta 1" },
    some { raw := "18E5154a" },
    some { raw := "[[a|iPhone1,1]]",
           wikilinks := [ { raw := "[[a|iPhone1,1]]", text := some "iPhone1,1" } ] },
    some { raw := "[http://e/a.ipsw a] [http://e/b.ipsw b]",
           external_links := [ { url := "http://e/a.ipsw" },
                               { url := "http://e/b.ipsw" } ] },
    some { raw := "100 200 300" } ]

/-- Template row for the no-download-links witness. -/
def c8Template : List String := ["Version", "Build", "Keys"]

/-- A row none of whose cells contains external link markup. -/
def c8Row : List (Option Cell) :=
  [ some { raw := "14.5 beta 1" }, some { raw := "18E5154a" }, some { raw := "[[x]]" } ]

/-- Concrete guard-point record of the completeness-guard witness. -/
def c9F : Firm :=
  { version := some "v", buildid := some "b", url := some "u", size := some 100 }

/-- Two records for the persistence witness, listed in ascending buildid
order so that the written file shows the descending sort. -/
def c10F1 : Firm :=
  { version := some "v1", buildid := some "18A100", url := some "u1", size := some 1 }

/-- Second record for the persistence witness. -/
def c10F2 : Firm :=
  { version := some "v2", buildid := some "18B200", url := some "u2", size := some 2 }

/-- The accumulated mapping of the persistence witness. -/
def c10Api : Api :=
  [ ("iPhone1,1", [c10F1, c10F2]), ("iPad1,1", [c10F2]) ]

/-- C1: the claim asserts that in a 4-device row `[A,B,C,D]` with two
build variants the records emitted for A and B carry the first buildid and
those for C and D the second.  On the code this fails: line 46 allocates a
single `firm` dict per row and line 97 appends that same dict for every
device, so the loop's later iterations mutate the records already
appended.  For the concrete row `c1Row` (buildids `18E5154a`/`18E5154b`)
all four devices, including A = `iPhone1,1` and B = `iPhone1,2`, end up
with a record carrying `18E5154b`, the second variant's buildid, url and
size. -/
theorem c1_row_aliasing_eval :
    rowBuildids (compactRow c1Row) = .ok ["18E5154a", "18E5154b"]
    ∧ rowDevices c1Template (compactRow c1Row) =
        .ok ["iPhone1,1", "iPhone1,2", "iPad1,1", "iPod1,1"]
    ∧ processRow [] c1Template c1Row = .ok c1ResultApi
    ∧ (apiGet c1ResultApi "iPhone1,1").map (fun f => f.buildid) = [some "18E5154b"]
    ∧ (apiGet c1ResultApi "iPhone1,2").map (fun f => f.buildid) = [some "18E5154b"]
    ∧ c1FinalFirm.url = some "http://e/b.ipsw" :=
  ⟨rfl, rfl, rfl, rfl, rfl, rfl⟩

/-- C2: the claim asserts that no two records of one device ever share a
buildid (first-seen wins).  On the code this fails through the shared
per-row `firm` dict: in `c2Row2` the duplicate check for `iPhone1,1` runs
while the dict still holds buildid `18E5154a`, the dict is appended, and
the second device's iteration then mutates it to `18E5154b` — equal to the
buildid `iPhone1,1` already has from `c2Row1`.  The device's list ends
with two records of buildid `18E5154b`. -/
theorem c2_duplicate_buildid_eval :
    processTable [] { template := c2Template, rows := [c2Row1, c2Row2] } = .ok c2ResultApi
    ∧ (apiGet c2ResultApi "iPhone1,1").map (fun f => f.buildid) =
        [some "18E5154b", some "18E5154b"]
    ∧ ¬ ((apiGet c2ResultApi "iPhone1,1").map (fun f => f.buildid)).Nodup :=
  ⟨rfl, rfl, by decide⟩

/-- C3 counterexample: a row whose template has no column label containing
`Codename` or `Keys` does not yield "no record and processing continues" —
the `next(...)` on line 41 raises `StopIteration`, which nothing catches,
so `build_api` raises. -/
theorem c3_counterexample_missing_label_raises :
    processRow [] ["Version", "Build", "Download", "Size"] c3Row = .error .stopIteration :=
  rfl

/-- C4: the claim asserts a page is processed iff its title contains
`".x"` and a requested family substring and its major version is at least
the family minimum (7 for Apple TV, 9 otherwise).  On the code this fails
for every Apple TV page: line 31 parses as `(major_version < 9) if
('Apple TV' not in title) else 7`, so for an Apple TV title the `if`
condition is the truthy constant `7` and the page is always skipped —
contradicting the line's own comment and the `build_api(('Apple TV',))`
call in `main`.  Concretely, `Beta Firmware/Apple TV/9.x` passes the
filter and has major version 9 ≥ 7, yet is not processed, while the
non-Apple-TV branch behaves as claimed. -/
theorem c4_appletv_filter_eval :
    pageFilterPasses "Beta Firmware/Apple TV/9.x" ["Apple TV"] = true
    ∧ pageMajorVersion "Beta Firmware/Apple TV/9.x" = .ok 9
    ∧ pageStep "Beta Firmware/Apple TV/9.x" ["Apple TV"] = .ok false
    ∧ pageStep "Beta Firmware/Apple TV/12.x" ["Apple TV"] = .ok false
    ∧ pageStep "Beta Firmware/iPhone/9.x" ["iPhone"] = .ok true
    ∧ pageStep "Beta Firmware/iPhone/8.x" ["iPhone"] = .ok false :=
  ⟨rfl, rfl, rfl, rfl, rfl, rfl⟩

/-- C5 counterexample: the claim's example cell `[[iOS 10.1 beta 1]]` (a
bare wiki-link) does not normalise to its display text — `wikitextparser`
gives the link no display text, and `firm_data[0].replace(str(link),
None)` on line 50 raises `TypeError`.  A full row with this version cell
aborts `build_api` instead of emitting a record. -/
theorem c5_counterexample_bare_wikilink_raises :
    rowVersion [c5BareCell] = .error .typeError
    ∧ rowVersion [c5BareCell] ≠ .ok "iOS 10.1 beta 1"
    ∧ processRow [] c1Template c5Row = .error .typeError :=
  ⟨rfl, fun h => Except.noConfusion h, rfl⟩

/-- C6: the claim asserts that after `get_signing_status` every remaining
record carries a `signed` field and exactly the unresolvable ones are
removed.  On the code this fails: the loop pops elements of
`self.api[device]` while iterating it, so removing record `i` shifts the
list and the iterator skips the next record.  With `[c6r1, c6r2]` where
only `c6r1`'s download fails, `c6r1` is removed and `c6r2` — whose
download would resolve — is never visited: it remains in the list with no
`signed` field. -/
theorem c6_signing_skips_record_eval :
    get_signing_status c6Resolves (fun _ => true) [c6r1, c6r2] = [c6r2]
    ∧ c6r2.signed = none
    ∧ c6Resolves c6r2 = true :=
  ⟨rfl, rfl, rfl⟩

/-- C7 counterexample: the sizes the code extracts are not the
whitespace-separated tokens of the claim.  Line 70 splits on the space
character only and then deletes newlines inside each token, so the cell
`"5000 6000\n7000"` yields the sizes `[5000, 60007000]` — the two tokens
around the newline are merged — whereas the claim's whitespace
tokenisation yields `[5000, 6000, 7000]`. -/
theorem c7_counterexample_newline_token :
    ipswSizesOf "5000 6000\n7000" = [5000, 60007000]
    ∧ sizesSpec "5000 6000\n7000" = [5000, 6000, 7000]
    ∧ ipswSizesOf "5000 6000\n7000" ≠ sizesSpec "5000 6000\n7000" :=
  ⟨rfl, rfl, by decide⟩

/-- C3 amended: `build_api` does not survive malformed rows in general.
A row whose template has no label containing `Codename` or `Keys` raises
`StopIteration` (line 41); a row whose compacted cell list is empty raises
`IndexError` at the device-cell lookup; and a version cell whose first
embedded wiki-link has no display text raises `TypeError` (line 50).
Only the missing-download, non-`.ipsw` and size-count-mismatch rows are
skipped with processing continuing. -/
theorem c3_amended_malformed_rows_raise
    (api : Api) (template : List String) (row : List (Option Cell)) :
    (template.all (fun x => !(strContains x "Codename" || strContains x "Keys")) = true →
      processRow api template row = .error .stopIteration)
    ∧ (∀ i, deviceColIdx template = .ok i → compactRow row = [] →
        processRow api template row = .error .indexError)
    ∧ (∀ c0 fdTail wl wlTail, deviceColIdx template = .ok 0 →
        compactRow row = c0 :: fdTail → c0.wikilinks = wl :: wlTail → wl.text = none →
        processRow api template row = .error .typeError) := by
  refine ⟨?_, ?_, ?_⟩
  · intro h
    have hfind : template.find?
        (fun x => strContains x "Codename" || strContains x "Keys") = none := by
      rw [List.find?_eq_none]
      intro x hx
      have hx2 := List.all_eq_true.mp h x hx
      simpa using hx2
    simp [processRow, rowDevices, deviceColIdx, hfind]
  · intro i hIdx hfd
    simp [processRow, rowDevices, hIdx, hfd, pyGet]
  · intro c0 fdTail wl wlTail h0 hfd hwl htext
    simp [processRow, rowDevices, rowVersion, h0, hfd, hwl, htext, pyGet]

/-- C3 witness: a template with neither label makes any row raise. -/
theorem c3_amended_witness :
    (["Version", "Build"].all
        (fun x => !(strContains x "Codename" || strContains x "Keys")) = true)
    ∧ processRow [] ["Version", "Build"] [] = .error .stopIteration :=
  ⟨by decide, (c3_amended_malformed_rows_raise [] ["Version", "Build"] []).1 (by decide)⟩

/-- C5 amended: when the first compacted cell embeds a wiki-link carrying
display text (a piped link), the version is the cell text with the raw
link markup replaced by the display text; with no embedded wiki-link it is
the cell text unchanged; but for a bare wiki-link (no display text) the
extraction raises `TypeError` instead of normalising. -/
theorem c5_amended_version_extraction (fd : List Cell) (c0 : Cell) (tl : List Cell)
    (hfd : fd = c0 :: tl) :
    (c0.wikilinks = [] → rowVersion fd = .ok c0.raw)
    ∧ (∀ wl wtl t, c0.wikilinks = wl :: wtl → wl.text = some t →
        rowVersion fd = .ok (strReplaceAll c0.raw wl.raw t))
    ∧ (∀ wl wtl, c0.wikilinks = wl :: wtl → wl.text = none →
        rowVersion fd = .error .typeError) := by
  subst hfd
  have h0 : pyGet (c0 :: tl) 0 = .ok c0 := by simp [pyGet]
  refine ⟨?_, ?_, ?_⟩
  · intro hw
    simp [rowVersion, h0, hw]
  · intro wl wtl t hw ht
    simp [rowVersion, h0, hw, ht]
  · intro wl wtl hw ht
    simp [rowVersion, h0, hw, ht]

/-- C5 witness: the piped link `[[iOS 14.5|iOS 14.5 beta]]` is unwrapped
to its display text. -/
theorem c5_amended_witness :
    rowVersion [c5PipedCell] =
      .ok (strReplaceAll c5PipedCell.raw c5PipedCell.raw "iOS 14.5 beta")
    ∧ strReplaceAll c5PipedCell.raw c5PipedCell.raw "iOS 14.5 beta" = "iOS 14.5 beta" :=
  ⟨(c5_amended_version_extraction [c5PipedCell] c5PipedCell [] rfl).2.1
      { raw := c5PipedCell.raw, text := some "iOS 14.5 beta" } [] "iOS 14.5 beta" rfl rfl,
    by decide⟩

/-- Unfolds the append-if-kept loop of the size extraction into a
filter-and-map description. -/
theorem foldl_if_append_eq_filter_map {α β : Type} (p : α → Bool) (g : α → β) :
    ∀ (l : List α) (acc : List β),
      l.foldl (fun acc w => if p w then acc ++ [g w] else acc) acc =
        acc ++ (l.filter p).map g
  | [], acc => by simp
  | w :: ws, acc => by
    rw [List.foldl_cons, List.filter_cons]
    by_cases h : p w = true
    · rw [if_pos h, if_pos h, foldl_if_append_eq_filter_map p g ws (acc ++ [g w])]
      simp
    · rw [if_neg h, if_neg h, foldl_if_append_eq_filter_map p g ws acc]

/-- C7 amended: the sizes extracted for a row are exactly those
space-separated tokens of the last compacted cell (Python `split(' ')`,
which a newline does not separate) that, after commas and newlines are
removed, are purely numeric and greater than 10; and whenever their count
differs from the count of extracted download links the row is skipped,
leaving the mapping unchanged. -/
theorem c7_amended_sizes :
    (∀ raw, ipswSizesOf raw =
      (((pySplit raw " ").map
          (fun x => strReplaceAll (strReplaceAll x "," "") "\n" "")).filter
        (fun w => pyIsNumeric w && decide (10 < pyStrToNat w))).map
          (fun w => (pyStrToNat w : Int)))
    ∧ (∀ (api : Api) (template : List String) (row : List (Option Cell))
        devices version buildids ipsws lastCell,
        rowDevices template (compactRow row) = .ok devices →
        rowVersion (compactRow row) = .ok version →
        rowBuildids (compactRow row) = .ok buildids →
        rowIpsws (compactRow row) = some ipsws →
        ipsws.any (fun l => strEndsWith l.url ".ipsw") = true →
        pyGet (compactRow row) ((compactRow row).length - 1) = .ok lastCell →
        (ipswSizesOf lastCell.raw).length ≠ ipsws.length →
        processRow api template row = .ok api) := by
  constructor
  · intro raw
    rw [ipswSizesOf,
      foldl_if_append_eq_filter_map
        (fun w => pyIsNumeric w && decide (10 < pyStrToNat w))
        (fun w => (pyStrToNat w : Int))]
    simp
  · intro api template row devices version buildids ipsws lastCell hD hV hB hI hany hLast hne
    simp [processRow, hD, hV, hB, hI, hany, hLast, hne]

/-- C7 witness: a row with two download links and three sizes is skipped. -/
theorem c7_amended_witness :
    ((ipswSizesOf "100 200 300").length ≠ 2)
    ∧ processRow [] c7Template c7Row = .ok [] :=
  ⟨by decide,
    c7_amended_sizes.2 [] c7Template c7Row ["iPhone1,1"] "14.5 beta 1" ["18E5154a"]
      [{ url := "http://e/a.ipsw" }, { url := "http://e/b.ipsw" }]
      { raw := "100 200 300" } rfl rfl rfl rfl rfl rfl (by decide)⟩

/-- C8: a row none of whose compacted cells contains external link
markup adds no record for any device (the row is skipped, or an earlier
extraction step raises, killing the run with nothing added); likewise a
row whose extracted external links include none ending in `.ipsw`. -/
theorem c8_no_links_skips_row (api : Api) (template : List String)
    (row : List (Option Cell)) :
    ((compactRow row).all (fun c => c.external_links.isEmpty) = true →
      processRow api template row = .ok api ∨ ∃ e, processRow api template row = .error e)
    ∧ (∀ ipsws, rowIpsws (compactRow row) = some ipsws →
        ipsws.all (fun l => !(strEndsWith l.url ".ipsw")) = true →
        processRow api template row = .ok api ∨ ∃ e, processRow api template row = .error e) := by
  constructor
  · intro h
    have hI : rowIpsws (compactRow row) = none := by
      have hfind : (compactRow row).find? (fun c => !c.external_links.isEmpty) = none := by
        rw [List.find?_eq_none]
        intro c hc
        have hc2 := List.all_eq_true.mp h c hc
        simpa using hc2
      rw [rowIpsws, hfind]
      rfl
    cases hD : rowDevices template (compactRow row) with
    | error e => exact Or.inr ⟨e, by simp [processRow, hD]⟩
    | ok devices =>
      cases hV : rowVersion (compactRow row) with
      | error e => exact Or.inr ⟨e, by simp [processRow, hD, hV]⟩
      | ok version =>
        cases hB : rowBuildids (compactRow row) with
        | error e => exact Or.inr ⟨e, by simp [processRow, hD, hV, hB]⟩
        | ok buildids => exact Or.inl (by simp [processRow, hD, hV, hB, hI])
  · intro ipsws hI hall
    have hany : ipsws.any (fun l => strEndsWith l.url ".ipsw") = false := by
      rw [List.any_eq_false]
      intro l hl
      have hl2 := List.all_eq_true.mp hall l hl
      simpa using hl2
    cases hD : rowDevices template (compactRow row) with
    | error e => exact Or.inr ⟨e, by simp [processRow, hD]⟩
    | ok devices =>
      cases hV : rowVersion (compactRow row) with
      | error e => exact Or.inr ⟨e, by simp [processRow, hD, hV]⟩
      | ok version =>
        cases hB : rowBuildids (compactRow row) with
        | error e => exact Or.inr ⟨e, by simp [processRow, hD, hV, hB]⟩
        | ok buildids => exact Or.inl (by simp [processRow, hD, hV, hB, hI, hany])

/-- C8 witness: a fully linkless row leaves the mapping unchanged. -/
theorem c8_witness :
    ((compactRow c8Row).all (fun c => c.external_links.isEmpty) = true)
    ∧ (processRow [] c8Template c8Row = .ok []
        ∨ ∃ e, processRow [] c8Template c8Row = .error e) :=
  ⟨by decide, (c8_no_links_skips_row [] c8Template c8Row).1 (by decide)⟩

/-- C9: whenever the device loop's field assignments (lines 78-88)
complete for a `firm` dict that has its version set and no `signed` key —
which holds on every path that reaches them — the dict at the
completeness guard of line 90 carries exactly the keys `version`,
`buildid`, `url`, `size`, so the guard's condition `len(firm.keys()) < 4`
is false and the incomplete-record skip branch is unreachable. -/
theorem c9_guard_unreachable (buildids : List String) (ipsws : List ExternalLink)
    (sizes : List Int) (n d : Nat) (f0 f : Firm)
    (hv : f0.version.isSome = true) (hs : f0.signed = none)
    (hb : buildFirm buildids ipsws sizes n d f0 = .ok f) :
    f.keys = ["version", "buildid", "url", "size"] ∧ ¬ (f.numKeys < 4) := by
  unfold buildFirm at hb
  repeat' split at hb
  all_goals first
    | exact Except.noConfusion hb
    | (injection hb with hb
       subst hb
       refine ⟨?_, ?_⟩ <;> simp [Firm.keys, Firm.numKeys, hv, hs])

/-- C9 witness: a concrete completed assignment has all four keys. -/
theorem c9_witness :
    buildFirm ["b"] [{ url := "u" }] [100] 1 0 { version := some "v" } = .ok c9F
    ∧ (c9F.keys = ["version", "buildid", "url", "size"] ∧ ¬ (c9F.numKeys < 4)) :=
  ⟨rfl,
    c9_guard_unreachable ["b"] [{ url := "u" }] [100] 1 0 { version := some "v" } c9F
      rfl rfl rfl⟩

/-- Writes into a directory that holds none of the written names append
in order: the fold of `fsWrite` over fresh keys lists one file per entry. -/
theorem foldl_fsWrite_concat (g : List Firm → FsFile) :
    ∀ (api : Api) (d : List (String × FsFile)),
      (api.map Prod.fst).Nodup →
      (∀ k ∈ api.map Prod.fst, d.any (fun p => p.1 == k) = false) →
      api.foldl (fun d kv => fsWrite d kv.1 (g kv.2)) d =
        d ++ api.map (fun kv => (kv.1, g kv.2))
  | [], d, _, _ => by simp
  | kv :: rest, d, hnd, hfresh => by
    rw [List.foldl_cons]
    have hk : d.any (fun p => p.1 == kv.1) = false := hfresh kv.1 (by simp)
    have hw : fsWrite d kv.1 (g kv.2) = d ++ [(kv.1, g kv.2)] := by
      rw [fsWrite, hk]
      rfl
    rw [hw]
    have hnd2 : (rest.map Prod.fst).Nodup := by
      simp only [List.map_cons, List.nodup_cons] at hnd
      exact hnd.2
    have hknotin : kv.1 ∉ rest.map Prod.fst := by
      simp only [List.map_cons, List.nodup_cons] at hnd
      exact hnd.1
    have hfresh2 : ∀ k ∈ rest.map Prod.fst,
        (d ++ [(kv.1, g kv.2)]).any (fun p => p.1 == k) = false := by
      intro k hkmem
      rw [List.any_append]
      have h1 := hfresh k (by simp [hkmem])
      have h2 : (kv.1 == k) = false :=
        beq_eq_false_iff_ne.mpr (fun he => hknotin (he ▸ hkmem))
      simp [h1, h2]
    rw [foldl_fsWrite_concat g rest (d ++ [(kv.1, g kv.2)]) hnd2 hfresh2]
    simp

/-- C10: `write_api` first discards whatever tree pre-existed at the
output path (its result does not depend on the prior contents) and, when
the device keys are distinct — as keys of the Python dict `self.api`
always are — writes exactly one file per device key, named by the device
and holding its records sorted descending by buildid. -/
theorem c10_write_api_replaces (prior prior2 : Option (List (String × FsFile)))
    (api : Api) :
    write_api prior api = write_api prior2 api
    ∧ ((api.map Prod.fst).Nodup →
        write_api prior api = api.map (fun kv => (kv.1, pySortedByBuildidDesc kv.2))) := by
  constructor
  · cases prior <;> cases prior2 <;> rfl
  · intro h
    have hmain := foldl_fsWrite_concat pySortedByBuildidDesc api [] h
      (by intro k _; rfl)
    cases prior <;> simpa [write_api] using hmain

/-- C10 witness: writing over a stale directory yields exactly the files
of the current mapping, sorted descending by buildid. -/
theorem c10_witness :
    ((c10Api.map Prod.fst).Nodup)
    ∧ write_api (some [("stale", [c10F1])]) c10Api =
        c10Api.map (fun kv => (kv.1, pySortedByBuildidDesc kv.2)) :=
  ⟨by decide, (c10_write_api_replaces (some [("stale", [c10F1])]) none c10Api).2 (by decide)⟩
